import Mathlib

/-!
Verification of the string-analyzer record service
(`app/models/profile.py`, `app/api/routes.py`).

Strings are modelled as `List Char` (Python strings are sequences of
code points).  The Python method `str.lower()` is modelled per character
by `Char.toLower` (ASCII case mapping); `str.split()` splits on the
ASCII whitespace characters; the regex classes `\d`, `\s`, `[a-z]` are
modelled by their ASCII ranges.  The SHA-256 digest and the creation
timestamp are library calls external to the repository, so `create`
takes them as parameters (`h` for the hash, `t` for the timestamp); no
theorem below depends on any property of `h` or `t` except where the
source compares hashes for equality.
-/

namespace StringAnalyzer

/-- Python `str.lower()`, applied per character (ASCII case mapping). -/
def pyLower (s : List Char) : List Char := s.map Char.toLower

/-- ASCII whitespace, the characters Python `str.split()` splits on
(`' '`, `\t`, `\n`, `\r`, `\x0b`, `\x0c`). -/
def isPyWs (c : Char) : Bool :=
  c = ' ' || c = '\t' || c = '\n' || c = '\x0d' || c = '\x0b' || c = '\x0c'

/-- Helper of Python `str.split()`: `acc` holds the (reversed) token
currently being scanned. -/
def pySplitAux : List Char → List Char → List (List Char)
  | [], acc => if acc.isEmpty then [] else [acc.reverse]
  | c :: rest, acc =>
      if isPyWs c then
        if acc.isEmpty then pySplitAux rest [] else acc.reverse :: pySplitAux rest []
      else
        pySplitAux rest (c :: acc)

/-- Python `value.split()`: whitespace-delimited tokens, empty tokens dropped. -/
def pySplit (s : List Char) : List (List Char) := pySplitAux s []

/-- `StringProperties` of `app/models/profile.py`. -/
structure StringProperties where
  length : Nat
  is_palindrome : Bool
  unique_characters : Nat
  word_count : Nat
  sha256_hash : List Char
  character_frequency_map : List (Char × Nat)
  deriving Repr, DecidableEq

/-- `StringRecord` of `app/models/profile.py` (the raw dict form stored
in the JSON file carries the same fields). -/
structure StringRecord where
  id : List Char
  value : List Char
  properties : StringProperties
  created_at : List Char
  deriving Repr, DecidableEq

/-- The character-frequency loop of `StringRecord.create`:
`character_frequency_map[char] = character_frequency_map.get(char, 0) + 1`
over an association list (insertion-ordered, like a Python dict). -/
def freqInsert (m : List (Char × Nat)) (c : Char) : List (Char × Nat) :=
  if (m.lookup c).isSome then
    m.map (fun p => if p.1 = c then (p.1, p.2 + 1) else p)
  else
    m ++ [(c, 1)]

def freqMap (s : List Char) : List (Char × Nat) := s.foldl freqInsert []

/-- `StringRecord.create` (`app/models/profile.py`, lines 24-74).
`h` models `hashlib.sha256(value.encode()).hexdigest()` and `t` models
the `datetime.now(timezone.utc)` timestamp string. -/
def StringRecord.create (h : List Char → List Char) (t : List Char)
    (value : List Char) : StringRecord :=
  let sha_hash := h value
  let cleaned := (pyLower value).filter (fun c => c ≠ ' ')
  let is_palindrome : Bool := cleaned = cleaned.reverse
  let length := value.length
  let unique_characters := value.dedup.length
  let word_count := (pySplit value).length
  { id := sha_hash
    value := value
    properties :=
      { length := length
        is_palindrome := is_palindrome
        unique_characters := unique_characters
        word_count := word_count
        sha256_hash := sha_hash
        character_frequency_map := freqMap value }
    created_at := t }

/-- The cleaned form the palindrome check works on: lower-cased, spaces
removed. -/
def cleanedOf (s : List Char) : List Char :=
  (pyLower s).filter (fun c => c ≠ ' ')

/-- An HTTP error response (`HTTPException(status_code, detail)`). -/
structure HTTPError where
  status : Nat
  detail : String
  deriving Repr, DecidableEq

/-- A JSON value supplied under the key `value` of the request payload of
`POST /strings`: null, a string, or anything else (number, list, ...). -/
inductive PyValue where
  | vNull
  | vStr (s : List Char)
  | vOther
  deriving Repr, DecidableEq

/-- `analyze_string` (`app/api/routes.py`, lines 38-77).  `payload` is
`none` when the key `value` is absent from the request body.  The second
component of the result is the persisted collection: `save_data` runs
only on the success path, so every error branch returns the store
unchanged. -/
def analyze_string (h : List Char → List Char) (t : List Char)
    (payload : Option PyValue) (store : List StringRecord) :
    Except HTTPError StringRecord × List StringRecord :=
  match payload with
  | none => (.error ⟨400, "Missing value field"⟩, store)
  | some .vNull => (.error ⟨400, "Missing value field"⟩, store)
  | some .vOther => (.error ⟨422, "Invalid data type for value (must be string)"⟩, store)
  | some (.vStr value) =>
      let record := StringRecord.create h t value
      if store.any (fun item => item.id == record.id) then
        (.error ⟨409, "String already exists in the system"⟩, store)
      else
        (.ok record, store ++ [record])

/-- `delete_string` (`app/api/routes.py`, lines 265-286): remove the
records whose `value` equals the argument exactly; 404 when nothing was
removed.  The second component is the persisted collection; `save_data`
runs only on the success path. -/
def delete_string (string_value : List Char) (store : List StringRecord) :
    Except HTTPError Unit × List StringRecord :=
  let data := store.filter (fun item => item.value ≠ string_value)
  if data.length = store.length then
    (.error ⟨404, "String does not exist in the system"⟩, store)
  else
    (.ok (), data)

/-- A mutating operation on the store: a `POST /strings` submission or a
`DELETE /strings/{value}`. -/
inductive Op where
  | createOp (payload : Option PyValue)
  | deleteOp (v : List Char)

/-- The store state after one operation (the persisted collection;
errors leave it unchanged). -/
def stepOp (h : List Char → List Char) (t : List Char)
    (store : List StringRecord) : Op → List StringRecord
  | .createOp p => (analyze_string h t p store).2
  | .deleteOp v => (delete_string v store).2

/-- The store reached from the empty store by a sequence of operations. -/
def runOps (h : List Char → List Char) (t : List Char) (ops : List Op) :
    List StringRecord :=
  ops.foldl (stepOp h t) []

/-- Python substring containment `needle in hay`. -/
def containsSub : List Char → List Char → Bool
  | needle, [] => needle.isEmpty
  | needle, hay@(_ :: rest) =>
      hay.take needle.length == needle || containsSub needle rest

/-- ASCII decimal digit (the regex class `\d`, modelled on ASCII). -/
def isDigit (c : Char) : Bool := '0' ≤ c && c ≤ '9'

/-- Numeric value of a run of decimal digits (Python `int(...)`). -/
def natOfDigits (ds : List Char) : Nat :=
  ds.foldl (fun n c => n * 10 + (c.toNat - '0'.toNat)) 0

/-- Drop the literal `lit` from the front of `s`; `none` when `s` does
not start with it. -/
def stripLit : List Char → List Char → Option (List Char)
  | [], s => some s
  | _ :: _, [] => none
  | l :: ls, c :: cs => if c = l then stripLit ls cs else none

/-- The regex `\s+`: drop one or more whitespace characters (greedy; in
every context below the continuation starts with a non-whitespace
character, so the maximal munch is exact). -/
def stripWs1 (s : List Char) : Option (List Char) :=
  let ws := s.takeWhile isPyWs
  if ws.isEmpty then none else some (s.drop ws.length)

/-- Alternative 1 of the length regex of `filter_by_natural_language`
(line 108): `longer than (\d+)`; returns the captured number. -/
def lengthAlt1 (s : List Char) : Option Nat := do
  let rest ← stripLit "longer than ".toList s
  let ds := rest.takeWhile isDigit
  if ds.isEmpty then none else some (natOfDigits ds)

/-- Alternative 2 of the length regex: `more than (\d+) character`.  The
greedy `(\d+)` takes the maximal digit run; since `' '` is not a digit,
no backtracking into the run can succeed. -/
def lengthAlt2 (s : List Char) : Option Nat := do
  let rest ← stripLit "more than ".toList s
  let ds := rest.takeWhile isDigit
  if ds.isEmpty then none
  else do
    let _ ← stripLit " character".toList (rest.drop ds.length)
    some (natOfDigits ds)

/-- `re.search` of `longer than (\d+)|more than (\d+) character`: scan
positions left to right, trying alternative 1 before alternative 2 at
each position; yields `int(group(1) or group(2))`. -/
def lengthSearch : List Char → Option Nat
  | [] => none
  | s@(_ :: rest) => lengthAlt1 s <|> lengthAlt2 s <|> lengthSearch rest

/-- The regex class `[a-z]` capturing the head character. -/
def headLowerAZ : List Char → Option Char
  | [] => none
  | c :: _ => if 'a' ≤ c && c ≤ 'z' then some c else none

/-- Tail `(?:letter\s+)?([a-z])` of the character regex (line 114), with
backtracking: the optional group is tried first, and on failure of the
rest the group matches empty. -/
def afterLetterOpt (s : List Char) : Option Char :=
  (do let r ← stripLit "letter".toList s
      let r ← stripWs1 r
      headLowerAZ r) <|>
  headLowerAZ s

/-- Tail `(?:the\s+)?(?:letter\s+)?([a-z])` of the character regex, with
backtracking over the optional `the\s+` group. -/
def afterTheOpt (s : List Char) : Option Char :=
  (do let r ← stripLit "the".toList s
      let r ← stripWs1 r
      afterLetterOpt r) <|>
  afterLetterOpt s

/-- Tail `\s+(?:the\s+)?(?:letter\s+)?([a-z])` of the character regex. -/
def charTail (s : List Char) : Option Char := do
  let r ← stripWs1 s
  afterTheOpt r

/-- After the literal `contain`: `(?:s|ing)?` then the tail, with
backtracking through the alternatives `s`, `ing`, empty in that order. -/
def afterContain (s : List Char) : Option Char :=
  (do let r ← stripLit "s".toList s
      charTail r) <|>
  (do let r ← stripLit "ing".toList s
      charTail r) <|>
  charTail s

/-- `re.search` of `contain(?:s|ing)?\s+(?:the\s+)?(?:letter\s+)?([a-z])`
(`app/api/routes.py`, line 114): leftmost match, capturing the letter. -/
def charSearch : List Char → Option Char
  | [] => none
  | s@(_ :: rest) =>
      (do let r ← stripLit "contain".toList s
          afterContain r) <|>
      charSearch rest

/-- The criteria dictionary built by `filter_by_natural_language`
(`parsed_filters`); a field is `none` when the key is absent.  The
`max_length` field is read by the conflict check but no rule ever sets
it. -/
structure ParsedFilters where
  is_palindrome : Option Bool := none
  word_count : Option Nat := none
  min_length : Option Nat := none
  max_length : Option Nat := none
  contains_character : Option Char := none
  deriving Repr, DecidableEq

/-- Python `if not parsed_filters`: the dictionary is empty. -/
def ParsedFilters.isEmpty (pf : ParsedFilters) : Bool :=
  pf.is_palindrome.isNone && pf.word_count.isNone && pf.min_length.isNone &&
    pf.max_length.isNone && pf.contains_character.isNone

/-- The five ordered lexical rules of `filter_by_natural_language`
(lines 99-120), applied to the lower-cased query; rule 5 (`first
vowel`) runs after rule 4 and overwrites `contains_character`. -/
def parseNL (query : List Char) : ParsedFilters :=
  let ql := pyLower query
  let pf : ParsedFilters := {}
  let pf :=
    if containsSub "palindrome".toList ql || containsSub "palindromic".toList ql then
      { pf with is_palindrome := some true }
    else pf
  let pf :=
    if containsSub "single word".toList ql || containsSub "one word".toList ql then
      { pf with word_count := some 1 }
    else pf
  let pf :=
    match lengthSearch ql with
    | some n => { pf with min_length := some (n + 1) }
    | none => pf
  let pf :=
    match charSearch ql with
    | some c => { pf with contains_character := some c }
    | none => pf
  if containsSub "first vowel".toList ql then
    { pf with contains_character := some 'a' }
  else pf

/-- The conflicting-filters check (lines 127-132): both `min_length` and
`max_length` present and `min_length > max_length`. -/
def hasConflict (pf : ParsedFilters) : Bool :=
  match pf.min_length, pf.max_length with
  | some m, some x => m > x
  | _, _ => false

/-- The sequential filter application of `filter_by_natural_language`
(lines 135-150). -/
def nlApplyFilters (pf : ParsedFilters) (store : List StringRecord) :
    List StringRecord :=
  let d := store
  let d := match pf.is_palindrome with
    | some b => d.filter (fun r => r.properties.is_palindrome == b)
    | none => d
  let d := match pf.word_count with
    | some w => d.filter (fun r => r.properties.word_count == w)
    | none => d
  let d := match pf.min_length with
    | some m => d.filter (fun r => m ≤ r.properties.length)
    | none => d
  let d := match pf.max_length with
    | some x => d.filter (fun r => r.properties.length ≤ x)
    | none => d
  let d := match pf.contains_character with
    | some c => d.filter (fun r => (pyLower r.value).contains c)
    | none => d
  d

/-- The response of `GET /strings/filter-by-natural-language`. -/
structure NLResponse where
  data : List StringRecord
  count : Nat
  original : List Char
  parsed_filters : ParsedFilters
  deriving Repr, DecidableEq

/-- `filter_by_natural_language` (`app/api/routes.py`, lines 80-164).
No step of the model can raise an unexpected exception, so the generic
`except Exception` wrapper (lines 163-164) has no counterpart. -/
def filter_by_natural_language (query : List Char)
    (store : List StringRecord) : Except HTTPError NLResponse :=
  let pf := parseNL query
  if pf.isEmpty then
    .error ⟨400, "Unable to parse natural language query"⟩
  else if hasConflict pf then
    .error ⟨422, "Query parsed but resulted in conflicting filters"⟩
  else
    let data := nlApplyFilters pf store
    .ok ⟨data, data.length, query, pf⟩

/-- The validated criteria of `get_strings` (`app/api/routes.py`,
lines 167-233): `is_palindrome` already normalized to a boolean, the
numeric bounds as (validated, non-negative) machine integers, the
`contains_character` argument as the raw one-character string.  The same
record is what `get_strings` reports as `filters_applied`. -/
structure Criteria where
  is_palindrome : Option Bool := none
  min_length : Option Int := none
  max_length : Option Int := none
  word_count : Option Int := none
  contains_character : Option (List Char) := none
  deriving Repr, DecidableEq

/-- The sequential filter application of `get_strings` (lines 210-233),
in source order: palindrome, min_length, max_length, word_count,
contains_character (the last one case-insensitively, on both sides). -/
def applyFilters (store : List StringRecord) (c : Criteria) :
    List StringRecord :=
  let d := store
  let d := match c.is_palindrome with
    | some b => d.filter (fun r => r.properties.is_palindrome == b)
    | none => d
  let d := match c.min_length with
    | some m => d.filter (fun r => m ≤ (r.properties.length : Int))
    | none => d
  let d := match c.max_length with
    | some x => d.filter (fun r => (r.properties.length : Int) ≤ x)
    | none => d
  let d := match c.word_count with
    | some w => d.filter (fun r => (r.properties.word_count : Int) == w)
    | none => d
  let d := match c.contains_character with
    | some s => d.filter (fun r => containsSub (pyLower s) (pyLower r.value))
    | none => d
  d

/-- The conjunction of the predicates of all supplied criteria, as one
pass (the simultaneous reading of §4.2 of the spec). -/
def matchesCriteria (c : Criteria) (r : StringRecord) : Bool :=
  (match c.is_palindrome with
    | some b => r.properties.is_palindrome == b
    | none => true) &&
  (match c.min_length with
    | some m => m ≤ (r.properties.length : Int)
    | none => true) &&
  (match c.max_length with
    | some x => (r.properties.length : Int) ≤ x
    | none => true) &&
  (match c.word_count with
    | some w => (r.properties.word_count : Int) == w
    | none => true) &&
  (match c.contains_character with
    | some s => containsSub (pyLower s) (pyLower r.value)
    | none => true)

/-- `get_strings` (`app/api/routes.py`, lines 167-239): parameter
validation in source order, then the sequential filters.  `is_palindrome`
arrives as an arbitrary optional string and is normalized by
`is_palindrome.lower() == "true"`; the result echoes the applied
criteria (`filters_applied`). -/
def get_strings (is_palindrome : Option (List Char))
    (min_length max_length word_count : Option Int)
    (contains_character : Option (List Char))
    (store : List StringRecord) :
    Except HTTPError (List StringRecord × Criteria) :=
  if (match contains_character with
      | some s => s.length != 1
      | none => false) then
    .error ⟨400, "contains_character must be a single character"⟩
  else if (match min_length with
      | some m => decide (m < 0)
      | none => false) then
    .error ⟨400, "min_length must be non-negative"⟩
  else if (match max_length with
      | some x => decide (x < 0)
      | none => false) then
    .error ⟨400, "max_length must be non-negative"⟩
  else if (match word_count with
      | some w => decide (w < 0)
      | none => false) then
    .error ⟨400, "word_count must be non-negative"⟩
  else
    let crit : Criteria :=
      { is_palindrome := is_palindrome.map (fun s => pyLower s == "true".toList)
        min_length := min_length
        max_length := max_length
        word_count := word_count
        contains_character := contains_character }
    .ok (applyFilters store crit, crit)

/-- Number of whitespace-delimited tokens of a string, by a single
left-to-right scan; `inTok` says whether the scan stands inside a
maximal run of non-whitespace characters. -/
def tokenCountAux : List Char → Bool → Nat
  | [], inTok => if inTok then 1 else 0
  | c :: rest, inTok =>
      if isPyWs c then (if inTok then 1 else 0) + tokenCountAux rest false
      else tokenCountAux rest true

/-- Number of whitespace-delimited tokens (maximal non-whitespace runs)
of a string — the specification-side reading of `word_count`. -/
def tokenCount (s : List Char) : Nat := tokenCountAux s false

/-! ### Helper lemmas -/

theorem length_pySplitAux (s : List Char) :
    ∀ acc : List Char, (pySplitAux s acc).length = tokenCountAux s (!acc.isEmpty) := by
  induction s with
  | nil =>
      intro acc
      cases hacc : acc.isEmpty <;> simp [pySplitAux, tokenCountAux, hacc]
  | cons c rest ih =>
      intro acc
      cases hw : isPyWs c
      · simp [pySplitAux, tokenCountAux, hw, ih]
      · cases hacc : acc.isEmpty <;>
          simp [pySplitAux, tokenCountAux, hw, hacc, ih, Nat.add_comm]

theorem parseNL_max_eq_none (q : List Char) : (parseNL q).max_length = none := by
  simp only [parseNL]
  repeat' split
  all_goals rfl

theorem hasConflict_parseNL (q : List Char) : hasConflict (parseNL q) = false := by
  have hmax := parseNL_max_eq_none q
  cases hmin : (parseNL q).min_length <;> simp [hasConflict, hmin, hmax]

theorem parseNL_min_of_lengthSearch (q : List Char) (n : Nat)
    (hl : lengthSearch (pyLower q) = some n) :
    (parseNL q).min_length = some (n + 1) := by
  simp only [parseNL, hl]
  repeat' split
  all_goals rfl

theorem stepOp_nodup (h : List Char → List Char) (t : List Char)
    (store : List StringRecord) (op : Op)
    (hn : (store.map StringRecord.id).Nodup) :
    ((stepOp h t store op).map StringRecord.id).Nodup := by
  cases op with
  | deleteOp v =>
      show (((delete_string v store).2).map StringRecord.id).Nodup
      unfold delete_string
      dsimp only
      split
      · exact hn
      · exact hn.sublist ((List.filter_sublist store).map StringRecord.id)
  | createOp p =>
      show (((analyze_string h t p store).2).map StringRecord.id).Nodup
      match p with
      | none => exact hn
      | some .vNull => exact hn
      | some .vOther => exact hn
      | some (.vStr v) =>
          unfold analyze_string
          dsimp only
          split
          · exact hn
          · rename_i hany
            rw [List.map_append]
            rw [List.nodup_append]
            refine ⟨hn, List.nodup_singleton _, ?_⟩
            intro a ha hb
            simp only [List.map_cons, List.map_nil, List.mem_singleton] at hb
            subst hb
            rcases List.mem_map.mp ha with ⟨item, hitem, hid⟩
            have hall : ∀ x ∈ store,
                ¬((x.id == (StringRecord.create h t v).id) = true) := by
              simpa [List.any_eq_true] using hany
            exact hall item hitem (beq_iff_eq.mpr hid)

theorem foldl_stepOp_nodup (h : List Char → List Char) (t : List Char)
    (ops : List Op) :
    ∀ store : List StringRecord, (store.map StringRecord.id).Nodup →
      ((ops.foldl (stepOp h t) store).map StringRecord.id).Nodup := by
  induction ops with
  | nil => intro store hn; exact hn
  | cons op rest ih =>
      intro store hn
      exact ih _ (stepOp_nodup h t store op hn)

/-! ### The claims -/

/-- Claim C1: for every string `s`, `create(s).properties.is_palindrome` is true
iff `s`, lower-cased and with all spaces removed, equals its own reverse;
`create "RaceCar"` is a palindrome and `create "hello world"` is not. -/
theorem create_is_palindrome_iff :
    (∀ (h : List Char → List Char) (t value : List Char),
      (StringRecord.create h t value).properties.is_palindrome = true ↔
        cleanedOf value = (cleanedOf value).reverse) ∧
    (StringRecord.create id [] "RaceCar".toList).properties.is_palindrome = true ∧
    (StringRecord.create id [] "hello world".toList).properties.is_palindrome = false := by
  refine ⟨fun h t value => ?_, by decide, by decide⟩
  simp [StringRecord.create, cleanedOf]

/-- Claim C2: in every store state reachable by create and delete operations
from the empty store, record ids are pairwise distinct; submitting a
value whose id already exists is rejected with Conflict (409) and the
store is not extended. -/
theorem store_ids_nodup_and_duplicate_conflict :
    (∀ (h : List Char → List Char) (t : List Char) (ops : List Op),
      ((runOps h t ops).map StringRecord.id).Nodup) ∧
    (∀ (h : List Char → List Char) (t : List Char)
        (st : List StringRecord) (v : List Char),
      (StringRecord.create h t v).id ∈ st.map StringRecord.id →
      analyze_string h t (some (.vStr v)) st =
        (.error ⟨409, "String already exists in the system"⟩, st)) := by
  constructor
  · intro h t ops
    exact foldl_stepOp_nodup h t ops [] (by simp)
  · intro h t st v hmem
    unfold analyze_string
    dsimp only
    rw [if_pos]
    rw [List.any_eq_true]
    rcases List.mem_map.mp hmem with ⟨item, hitem, hid⟩
    exact ⟨item, hitem, beq_iff_eq.mpr hid⟩

/-- Witness for C2: the concrete duplicate submission of the spec
(submitting "hello" twice) is rejected with 409 and the store is left
unchanged. -/
theorem store_ids_nodup_and_duplicate_conflict_witness :
    analyze_string id [] (some (.vStr "hello".toList))
        [StringRecord.create id [] "hello".toList] =
      (.error ⟨409, "String already exists in the system"⟩,
        [StringRecord.create id [] "hello".toList]) :=
  store_ids_nodup_and_duplicate_conflict.2 id [] _ _ (by decide)

/-- Counterexample for C3: supplying the non-boolean value "banana" for
`is_palindrome` is not rejected with 400: `get_strings` answers 200 and
interprets it as the filter `is_palindrome == false`. -/
theorem get_strings_is_palindrome_banana_ok :
    get_strings (some "banana".toList) none none none none [] =
      .ok ([], { is_palindrome := some false }) := by
  rfl

/-- Claim C3 as amended: the `is_palindrome` parameter of `get_strings` is
accepted as an arbitrary string, never validated: the applied filter is
`is_palindrome == (parameter equals "true" case-insensitively)`, so any
non-boolean value is interpreted as the `false` filter instead of being
rejected. -/
theorem get_strings_is_palindrome_normalizes :
    ∀ (ip : List Char) (st : List StringRecord),
      get_strings (some ip) none none none none st =
        .ok (st.filter
              (fun r => r.properties.is_palindrome == (pyLower ip == "true".toList)),
            { is_palindrome := some (pyLower ip == "true".toList) }) := by
  intro ip st
  rfl

/-- Claim C4: no query makes the natural-language translator produce a
`max_length` criterion, hence the conflicting-filters (422) branch is
unreachable from translator input — while the check itself
(`hasConflict`, used by `filter_by_natural_language`) is present and
active on a conflicting criteria set. -/
theorem translator_max_length_dead :
    (∀ q : List Char, (parseNL q).max_length = none) ∧
    (hasConflict { min_length := some 7, max_length := some 3 } = true) ∧
    (∀ (q : List Char) (st : List StringRecord) (e : HTTPError),
      filter_by_natural_language q st = .error e → e.status = 400) := by
  refine ⟨parseNL_max_eq_none, rfl, ?_⟩
  intro q st e herr
  unfold filter_by_natural_language at herr
  dsimp only at herr
  by_cases hpf : (parseNL q).isEmpty = true
  · rw [if_pos hpf] at herr
    rw [← Except.error.inj herr]
  · rw [if_neg hpf] at herr
    rw [if_neg (by simp [hasConflict_parseNL q])] at herr
    exact Except.noConfusion herr

/-- Witness for C4: a concrete unparseable query errors, and the status
of that error is 400 (not the 422 of the conflicting-filters branch). -/
theorem translator_max_length_dead_witness :
    filter_by_natural_language "zzz".toList [] =
        .error ⟨400, "Unable to parse natural language query"⟩ ∧
    (HTTPError.mk 400 "Unable to parse natural language query").status = 400 :=
  ⟨rfl, translator_max_length_dead.2.2 "zzz".toList [] _ rfl⟩

/-- Claim C5: whenever the length regex matches the lower-cased query with
captured number `N`, the translator sets `min_length = N + 1`; in
particular "strings longer than 5 characters" yields `min_length = 6`. -/
theorem nl_min_length_strictly_greater :
    (∀ (q : List Char) (n : Nat), lengthSearch (pyLower q) = some n →
      (parseNL q).min_length = some (n + 1)) ∧
    (parseNL "strings longer than 5 characters".toList).min_length = some 6 := by
  refine ⟨parseNL_min_of_lengthSearch, ?_⟩
  decide

/-- Witness for C5: on the concrete query the regex captures 5 and the
parsed `min_length` is 6. -/
theorem nl_min_length_strictly_greater_witness :
    lengthSearch (pyLower "strings longer than 5 characters".toList) = some 5 ∧
    (parseNL "strings longer than 5 characters".toList).min_length = some 6 :=
  ⟨by decide, nl_min_length_strictly_greater.1 _ 5 (by decide)⟩

/-- Claim C6: when the lower-cased query both matches the contain-letter regex
and holds the substring "first vowel", the parsed `contains_character`
is `a`: rule 5 runs after rule 4 and overwrites the same field. -/
theorem nl_first_vowel_overrides :
    ∀ (q : List Char) (c : Char), charSearch (pyLower q) = some c →
      containsSub "first vowel".toList (pyLower q) = true →
      (parseNL q).contains_character = some 'a' := by
  intro q c _ hfv
  simp only [parseNL]
  rw [if_pos hfv]

/-- Witness for C6: a query matching the contain-letter regex (with
letter `b`) and holding "first vowel" parses to `contains_character = a`. -/
theorem nl_first_vowel_overrides_witness :
    charSearch (pyLower "strings containing the letter b with first vowel".toList) =
      some 'b' ∧
    (parseNL "strings containing the letter b with first vowel".toList).contains_character =
      some 'a' :=
  ⟨by decide, nl_first_vowel_overrides _ 'b' (by decide) (by decide)⟩

/-- Claim C7: `filter_by_natural_language` answers the unparseable-query 400
iff no lexical rule matched anything (the parsed criteria set is empty);
the query "gibberish xyz 123" is such a case. -/
theorem nl_unparseable_iff_empty :
    (∀ (q : List Char) (st : List StringRecord),
      filter_by_natural_language q st =
          .error ⟨400, "Unable to parse natural language query"⟩ ↔
        (parseNL q).isEmpty = true) ∧
    filter_by_natural_language "gibberish xyz 123".toList [] =
      .error ⟨400, "Unable to parse natural language query"⟩ := by
  constructor
  · intro q st
    unfold filter_by_natural_language
    dsimp only
    cases hpf : (parseNL q).isEmpty
    · rw [if_neg (by simp [hpf])]
      rw [if_neg (by simp [hasConflict_parseNL q])]
      simp
    · rw [if_pos (by simp [hpf])]
      simp
  · rfl

/-- Claim C8: `create` is total (a Lean function on all of `List Char`), with
`length` the character count, `word_count` the number of
whitespace-delimited tokens, `unique_characters` the number of distinct
characters; on the empty string it yields length 0, word_count 0,
is_palindrome true, unique_characters 0. -/
theorem create_total_properties :
    (∀ (h : List Char → List Char) (t s : List Char),
      (StringRecord.create h t s).properties.length = s.length ∧
      (StringRecord.create h t s).properties.word_count = tokenCount s ∧
      (StringRecord.create h t s).properties.unique_characters = s.toFinset.card) ∧
    (∀ (h : List Char → List Char) (t : List Char),
      (StringRecord.create h t []).properties.length = 0 ∧
      (StringRecord.create h t []).properties.word_count = 0 ∧
      (StringRecord.create h t []).properties.is_palindrome = true ∧
      (StringRecord.create h t []).properties.unique_characters = 0) := by
  constructor
  · intro h t s
    refine ⟨rfl, ?_, ?_⟩
    · show (pySplit s).length = tokenCount s
      simpa [pySplit, tokenCount] using length_pySplitAux s []
    · show s.dedup.length = s.toFinset.card
      exact (List.card_toFinset s).symm
  · intro h t
    exact ⟨rfl, rfl, rfl, rfl⟩

/-- Claim C9: the structured filters are conjunctive and order-independent:
the sequential application equals one simultaneous filter by the
conjunction of the predicates, and applying `min_length = 5` then
`max_length = 5` equals one `applyFilters` call with both. -/
theorem filters_conjunctive_order_independent :
    (∀ (st : List StringRecord) (c : Criteria),
      applyFilters st c = st.filter (fun r => matchesCriteria c r)) ∧
    (∀ st : List StringRecord,
      applyFilters (applyFilters st { min_length := some 5 }) { max_length := some 5 } =
        applyFilters st { min_length := some 5, max_length := some 5 }) := by
  constructor
  · intro st c
    rcases c with ⟨ip, ml, xl, wc, cc⟩
    cases ip <;> cases ml <;> cases xl <;> cases wc <;> cases cc <;>
      simp [applyFilters, matchesCriteria, List.filter_filter,
        Bool.and_comm, Bool.and_left_comm, Bool.and_assoc]
  · intro st
    rfl

/-- Claim C10: mutating operations are atomic with respect to errors: whenever
`analyze_string` or `delete_string` returns an error, the persisted
collection is exactly the one loaded (the save step runs only on the
success path). -/
theorem mutations_atomic_on_error :
    (∀ (h : List Char → List Char) (t : List Char) (p : Option PyValue)
        (st : List StringRecord) (e : HTTPError),
      (analyze_string h t p st).1 = .error e → (analyze_string h t p st).2 = st) ∧
    (∀ (v : List Char) (st : List StringRecord) (e : HTTPError),
      (delete_string v st).1 = .error e → (delete_string v st).2 = st) := by
  constructor
  · intro h t p st e herr
    match p with
    | none => rfl
    | some .vNull => rfl
    | some .vOther => rfl
    | some (.vStr v) =>
        unfold analyze_string at herr ⊢
        dsimp only at herr ⊢
        split at herr
        · rename_i hc
          rw [if_pos hc]
        · exact Except.noConfusion herr
  · intro v st e herr
    unfold delete_string at herr ⊢
    dsimp only at herr ⊢
    split at herr
    · rename_i hc
      rw [if_pos hc]
    · exact Except.noConfusion herr

/-- Witness for C10: a create with the `value` key missing and a delete
of an absent value both error and leave the concrete store unchanged. -/
theorem mutations_atomic_on_error_witness :
    (analyze_string id [] none [StringRecord.create id [] "a".toList]).2 =
        [StringRecord.create id [] "a".toList] ∧
    (delete_string "x".toList []).2 = [] :=
  ⟨mutations_atomic_on_error.1 id [] none _ ⟨400, "Missing value field"⟩ rfl,
   mutations_atomic_on_error.2 "x".toList [] ⟨404, "String does not exist in the system"⟩ rfl⟩

end StringAnalyzer
